import Mathlib

/-!
# Verification of the `pcdswidgets` symbol base widget

Shallow embedding of `pcdswidgets/symbols/base.py`: the `ContentLocation`
enum class and the state and methods of `PCDSSymbolBase` (the
configuration fields set in `__init__`, the property setters
`channelsPrefix`, `showIcon`, `showStatusTooltip` and `iconSize`, the
layout management methods `clear` and `assemble_layout`, and
`status_tooltip`).

Host-toolkit objects are modelled by exactly the parts of their state
this code reads or writes: the icon keeps its size policy, its
minimum/maximum size and its visibility flag; the interlock frame keeps
its (optional) layout, a layout being an orientation together with the
ordered list of single-widget sub-layouts added to it.  Calls that only
request a repaint (`icon.update`, `update_stylesheet`) carry no modelled
state.  Calls to the overridable channel hooks, to `icon.setVisible` and
to `assemble_layout` are additionally recorded in an event trace, so
that properties about call order and call counts can be stated; the
channel-hook events record the value of `self._channels_prefix` the hook
observes on `self` at the moment of the call.
-/

/-- `ContentLocation`: enum class used by the widgets to configure the
controls content location (`Hidden = 0`, `Top = 1`, `Bottom = 2`,
`Left = 3`, `Right = 4`). -/
inductive ContentLocation
  | Hidden
  | Top
  | Bottom
  | Left
  | Right
  deriving DecidableEq, Repr

/-- The Qt size-policy values this code uses (`QSizePolicy.Expanding`,
`QSizePolicy.Fixed`, `QSizePolicy.Maximum`). -/
inductive SizePolicy
  | Expanding
  | Fixed
  | Maximum
  deriving DecidableEq, Repr

/-- The child widgets `assemble_layout` can place inside the interlock
frame: `self.icon` and `self.controls_frame`. -/
inductive ChildWidget
  | icon
  | controlsFrame
  deriving DecidableEq, Repr

/-- Layout orientation: `QVBoxLayout` is vertical, `QHBoxLayout` is
horizontal. -/
inductive BoxOrientation
  | vertical
  | horizontal
  deriving DecidableEq, Repr

/-- The `QHBoxLayout` created for each placed widget in
`assemble_layout` (`box_layout = QHBoxLayout();
box_layout.addWidget(widget)`): a sub-layout holding the widgets added
to it. -/
structure SubLayout where
  widgets : List ChildWidget
  deriving DecidableEq, Repr

/-- A layout installed on the interlock frame: its orientation and the
items (sub-layouts) added to it, in order. -/
structure Layout where
  orientation : BoxOrientation
  items : List SubLayout
  deriving DecidableEq, Repr

/-- State of the icon widget that `PCDSSymbolBase` reads or writes:
horizontal and vertical size policy, minimum and maximum size
(`setFixedSize(w, h)` sets both to `(w, h)`), and the explicit
visibility flag set by `setVisible`. -/
structure IconState where
  policyH : SizePolicy
  policyV : SizePolicy
  minW : Int
  minH : Int
  maxW : Int
  maxH : Int
  visible : Bool
  deriving DecidableEq, Repr

/-- State of a `PCDSSymbolBase` widget.

* `channelsPrefix` models `self._channels_prefix` (`None` until set);
* `icon` models `self.icon` (`None` in the base class until a subclass
  creates an icon widget);
* `show_icon`, `show_status_tooltip`, `icon_size`, `controls_location`
  model the private configuration fields of the same names;
* `interlock_layout` models the layout currently installed on
  `self.interlock` (`none` when the frame has no layout);
* `controls_visible` models the explicit visibility flag of
  `self.controls_frame` (set by `setVisible`);
* `NAME` models the optional class attribute `NAME` a subclass may
  declare (`hasattr(self, 'NAME')`). -/
structure SymbolState where
  channelsPrefix : Option String
  icon : Option IconState
  show_icon : Bool
  show_status_tooltip : Bool
  icon_size : Int
  controls_location : ContentLocation
  interlock_layout : Option Layout
  controls_visible : Bool
  NAME : Option String
  deriving DecidableEq, Repr

/-- Observable calls recorded while running a setter: the channel hooks
(each recording the `self._channels_prefix` value the hook observes at
the moment it is invoked), `icon.setVisible`, and `assemble_layout`. -/
inductive Event
  | destroyChannels (observed : Option String)
  | createChannels (observed : Option String)
  | setIconVisible (b : Bool)
  | assembleLayout
  deriving DecidableEq, Repr

namespace PCDSSymbolBase

/-- The state established by `PCDSSymbolBase.__init__` together with
`setup_ui`: `_channels_prefix = None`, `icon = None`,
`_show_icon = True`, `_show_status_tooltip = True`, `_icon_size = -1`,
`_controls_location = ContentLocation.Bottom`.  `setup_ui` creates the
interlock and controls frames (no layout is installed on the interlock
frame; the outer `QVBoxLayout` on the symbol itself is not part of the
modelled state) and leaves both frames with the default (not explicitly
hidden) visibility; the base class declares no `NAME` attribute. -/
def initState : SymbolState :=
  { channelsPrefix := none
    icon := none
    show_icon := true
    show_status_tooltip := true
    icon_size := -1
    controls_location := ContentLocation.Bottom
    interlock_layout := none
    controls_visible := true
    NAME := none }

/-- `destroy_channels`: extension point, a no-op by default.  The trace
records the call and the channels-prefix value the (possibly overridden)
hook observes on `self`. -/
def destroy_channels (s : SymbolState) : SymbolState × List Event :=
  (s, [Event.destroyChannels s.channelsPrefix])

/-- `create_channels`: extension point, a no-op by default.  The trace
records the call and the channels-prefix value the (possibly overridden)
hook observes on `self`. -/
def create_channels (s : SymbolState) : SymbolState × List Event :=
  (s, [Event.createChannels s.channelsPrefix])

/-- The `channelsPrefix` setter: `if prefix != self._channels_prefix`,
assign `self._channels_prefix = prefix`, then call `destroy_channels()`,
then `create_channels()`; otherwise do nothing. -/
def setChannelsPrefix (s : SymbolState) (p : String) : SymbolState × List Event :=
  if some p ≠ s.channelsPrefix then
    let s1 : SymbolState := { s with channelsPrefix := some p }
    let r1 := destroy_channels s1
    let r2 := create_channels r1.1
    (r2.1, r1.2 ++ r2.2)
  else
    (s, [])

/-- The while loop of `clear`: remove the item at index 0 until the
layout's count is 0. -/
def removeAllItems : List SubLayout → List SubLayout
  | [] => []
  | _ :: rest => removeAllItems rest

/-- `clear`: if the interlock frame has no layout, return immediately;
otherwise remove every item from the layout, then release the (now
empty) layout object by re-parenting it onto a throwaway `QWidget()`,
leaving the interlock frame without a layout. -/
def clear (s : SymbolState) : SymbolState :=
  match s.interlock_layout with
  | none => s
  | some l =>
    let _discarded : Layout := { l with items := removeAllItems l.items }
    { s with interlock_layout := none }

/-- `self.interlock.setLayout(layout)`: Qt installs the layout only when
the widget does not already have one; otherwise it warns and keeps the
existing layout. -/
def setInterlockLayout (s : SymbolState) (l : Layout) : SymbolState :=
  match s.interlock_layout with
  | some _ => s
  | none => { s with interlock_layout := some l }

/-- `self.controls_frame.setVisible(b)`. -/
def setControlsVisible (s : SymbolState) (b : Bool) : SymbolState :=
  { s with controls_visible := b }

/-- The `widget_map` dictionary of `assemble_layout`: for each
`ContentLocation`, the layout class to instantiate and the ordered list
of widgets to place. -/
def widget_map : ContentLocation → BoxOrientation × List ChildWidget
  | ContentLocation.Hidden =>
      (BoxOrientation.vertical, [ChildWidget.icon])
  | ContentLocation.Top =>
      (BoxOrientation.vertical, [ChildWidget.controlsFrame, ChildWidget.icon])
  | ContentLocation.Bottom =>
      (BoxOrientation.vertical, [ChildWidget.icon, ChildWidget.controlsFrame])
  | ContentLocation.Left =>
      (BoxOrientation.horizontal, [ChildWidget.controlsFrame, ChildWidget.icon])
  | ContentLocation.Right =>
      (BoxOrientation.horizontal, [ChildWidget.icon, ChildWidget.controlsFrame])

/-- Adding a sub-layout to the interlock frame's installed layout
(`layout.addLayout(box_layout)`; in the source the loop mutates the very
layout object that `setLayout` installed). -/
def addChildLayout (s : SymbolState) (sub : SubLayout) : SymbolState :=
  match s.interlock_layout with
  | none => s
  | some l => { s with interlock_layout := some { l with items := l.items ++ [sub] } }

/-- The `for widget in widgets` loop of `assemble_layout`: skip the
controls frame when it is not visible; otherwise wrap the widget in its
own `QHBoxLayout` and add that sub-layout to the interlock layout. -/
def addWidgetsLoop (cv : Bool) : SymbolState → List ChildWidget → SymbolState
  | s, [] => s
  | s, w :: rest =>
    if w = ChildWidget.controlsFrame ∧ cv = false then
      addWidgetsLoop cv s rest
    else
      addWidgetsLoop cv (addChildLayout s { widgets := [w] }) rest

/-- `assemble_layout`: clear the previous layout, instantiate the layout
class selected by `widget_map` for the current `ContentLocation`,
install it on the interlock frame, set the controls frame's visibility
(`self._controls_location != ContentLocation.Hidden`), and add the
listed widgets, each wrapped in its own sub-layout, skipping the
controls frame when it is not visible. -/
def assemble_layout (s : SymbolState) : SymbolState :=
  let s0 := clear s
  let layout : Layout := { orientation := (widget_map s0.controls_location).1, items := [] }
  let s1 := setInterlockLayout s0 layout
  let widgets := (widget_map s1.controls_location).2
  let cv : Bool := decide (s1.controls_location ≠ ContentLocation.Hidden)
  let s2 := setControlsVisible s1 cv
  addWidgetsLoop cv s2 widgets

/-- The `showIcon` setter: `if value != self._show_icon`, store the
flag, call `self.icon.setVisible(self._show_icon)` when an icon exists,
and call `assemble_layout()`; otherwise do nothing. -/
def setShowIcon (s : SymbolState) (v : Bool) : SymbolState × List Event :=
  if v ≠ s.show_icon then
    let s1 : SymbolState := { s with show_icon := v }
    let r2 : SymbolState × List Event :=
      match s1.icon with
      | some ic =>
          ({ s1 with icon := some { ic with visible := s1.show_icon } },
           [Event.setIconVisible s1.show_icon])
      | none => (s1, [])
    (assemble_layout r2.1, r2.2 ++ [Event.assembleLayout])
  else
    (s, [])

/-- The `showStatusTooltip` setter: store the flag on change, nothing
else. -/
def setShowStatusTooltip (s : SymbolState) (v : Bool) : SymbolState :=
  if v ≠ s.show_status_tooltip then { s with show_status_tooltip := v } else s

/-- The `iconSize` setter.  `size <= 0`: rebind `size = -1`, give the
icon an `Expanding`/`Expanding` size policy, minimum size `(1, 1)` and
maximum size `(999999, 999999)`.  `size > 0`: `setFixedSize(size, size)`
(which sets both minimum and maximum size to `(size, size)`) and a
`Fixed`/`Fixed` size policy.  Finally store `self._icon_size = size` and
request a repaint.  The setter dereferences `self.icon`, so a missing
icon surfaces as an attribute error, modelled as `none`. -/
def setIconSize (s : SymbolState) (size : Int) : Option SymbolState :=
  match s.icon with
  | none => none
  | some ic =>
    if size ≤ 0 then
      some { s with
        icon := some { ic with
          policyH := SizePolicy.Expanding
          policyV := SizePolicy.Expanding
          minW := 1
          minH := 1
          maxW := 999999
          maxH := 999999 }
        icon_size := -1 }
    else
      some { s with
        icon := some { ic with
          minW := size
          minH := size
          maxW := size
          maxH := size
          policyH := SizePolicy.Fixed
          policyV := SizePolicy.Fixed }
        icon_size := size }

/-- `status_tooltip`: return `self.NAME` when the attribute exists, else
the empty string. -/
def status_tooltip (s : SymbolState) : String :=
  match s.NAME with
  | some n => n
  | none => ""

/-- Recognises the `assemble_layout` event in a trace. -/
def isAssembleEvent : Event → Bool
  | Event.assembleLayout => true
  | _ => false

/-- Number of `assemble_layout` calls recorded in a trace. -/
def countAssembles (es : List Event) : Nat :=
  (es.filter isAssembleEvent).length

end PCDSSymbolBase

open PCDSSymbolBase

/-- The child ordering the specification documents for each
`ContentLocation` (spec-side description, stated from the spec's words,
to be compared against `assemble_layout`). -/
def specChildren : ContentLocation → List ChildWidget
  | ContentLocation.Hidden => [ChildWidget.icon]
  | ContentLocation.Top => [ChildWidget.controlsFrame, ChildWidget.icon]
  | ContentLocation.Bottom => [ChildWidget.icon, ChildWidget.controlsFrame]
  | ContentLocation.Left => [ChildWidget.controlsFrame, ChildWidget.icon]
  | ContentLocation.Right => [ChildWidget.icon, ChildWidget.controlsFrame]

/-- The layout orientation the specification documents for each
`ContentLocation` (spec-side description, stated from the spec's words,
to be compared against `assemble_layout`). -/
def specOrientation : ContentLocation → BoxOrientation
  | ContentLocation.Hidden => BoxOrientation.vertical
  | ContentLocation.Top => BoxOrientation.vertical
  | ContentLocation.Bottom => BoxOrientation.vertical
  | ContentLocation.Left => BoxOrientation.horizontal
  | ContentLocation.Right => BoxOrientation.horizontal

/-- `clear` always leaves the interlock frame without a layout and
changes nothing else. -/
lemma clear_eq (s : SymbolState) :
    clear s = { s with interlock_layout := none } := by
  cases s with
  | mk cp ic si st isz loc il cv nm => cases il <;> rfl

/-- Closed form of `assemble_layout`: it installs on the interlock frame
a fresh layout with the orientation and single-widget sub-layouts of the
current `ContentLocation` and sets the controls frame's visibility,
leaving every other field unchanged. -/
lemma assemble_layout_eq (s : SymbolState) :
    assemble_layout s =
      { s with
        controls_visible := decide (s.controls_location ≠ ContentLocation.Hidden)
        interlock_layout := some
          { orientation := specOrientation s.controls_location
            items := (specChildren s.controls_location).map
              (fun w => { widgets := [w] }) } } := by
  cases s with
  | mk cp ic si st isz loc il cv nm => cases loc <;> cases il <;> rfl

/-- C8: immediately after construction the configuration fields hold the
defaults: no channels prefix, no icon, show-icon true, show-tooltip
true, icon size `-1`, controls location `Bottom`. -/
theorem initState_defaults :
    initState.channelsPrefix = none ∧
    initState.icon = none ∧
    initState.show_icon = true ∧
    initState.show_status_tooltip = true ∧
    initState.icon_size = -1 ∧
    initState.controls_location = ContentLocation.Bottom :=
  ⟨rfl, rfl, rfl, rfl, rfl, rfl⟩

/-- C5: `clear` on a state whose interlock frame has no layout returns
without changing any state. -/
theorem clear_no_layout_noop (s : SymbolState) (h : s.interlock_layout = none) :
    clear s = s := by
  unfold clear
  rw [h]

/-- Witness for C5 at the freshly constructed state. -/
theorem clear_no_layout_noop_witness : clear initState = initState :=
  clear_no_layout_noop initState rfl

/-- C7: `status_tooltip` returns the declared `NAME` attribute when it
is present and the empty string otherwise. -/
theorem status_tooltip_spec (s : SymbolState) :
    (∀ n, s.NAME = some n → status_tooltip s = n) ∧
    (s.NAME = none → status_tooltip s = "") := by
  constructor
  · intro n h
    unfold status_tooltip
    rw [h]
  · intro h
    unfold status_tooltip
    rw [h]

/-- Witness for C7: a subclass with `NAME = "Valve"` and the base class
without a `NAME` attribute. -/
theorem status_tooltip_spec_witness :
    status_tooltip { initState with NAME := some "Valve" } = "Valve" ∧
    status_tooltip initState = "" :=
  ⟨(status_tooltip_spec { initState with NAME := some "Valve" }).1 "Valve" rfl,
   (status_tooltip_spec initState).2 rfl⟩

/-- C4: the `channelsPrefix` setter on a changed value invokes
`destroy_channels` then `create_channels`, each exactly once and in that
order, and stores the new value; on an unchanged value it invokes
neither hook and leaves the state unchanged. -/
theorem setChannelsPrefix_spec (s : SymbolState) (p : String) :
    (some p ≠ s.channelsPrefix →
      setChannelsPrefix s p =
        ({ s with channelsPrefix := some p },
         [Event.destroyChannels (some p), Event.createChannels (some p)])) ∧
    (some p = s.channelsPrefix → setChannelsPrefix s p = (s, [])) := by
  constructor
  · intro h
    simp [setChannelsPrefix, destroy_channels, create_channels, h]
  · intro h
    simp [setChannelsPrefix, h]

/-- Witness for C4 at the freshly constructed state (stored value
`none`) and a concrete new value. -/
theorem setChannelsPrefix_spec_witness :
    setChannelsPrefix initState "ca://VALVE" =
      ({ initState with channelsPrefix := some "ca://VALVE" },
       [Event.destroyChannels (some "ca://VALVE"),
        Event.createChannels (some "ca://VALVE")]) :=
  (setChannelsPrefix_spec initState "ca://VALVE").1 (by decide)

/-- C10: on a changed value the stored field is assigned before
`destroy_channels` runs, so the first recorded hook call is
`destroy_channels` observing the new value. -/
theorem channels_assigned_before_destroy (s : SymbolState) (p : String)
    (h : some p ≠ s.channelsPrefix) :
    ∃ rest, (setChannelsPrefix s p).2 =
      Event.destroyChannels (some p) :: rest := by
  refine ⟨[Event.createChannels (some p)], ?_⟩
  simp [setChannelsPrefix, destroy_channels, create_channels, h]

/-- Witness for C10 at the freshly constructed state. -/
theorem channels_assigned_before_destroy_witness :
    ∃ rest, (setChannelsPrefix initState "ca://PUMP").2 =
      Event.destroyChannels (some "ca://PUMP") :: rest :=
  channels_assigned_before_destroy initState "ca://PUMP" (by decide)

/-- C1: for every state, `assemble_layout` installs a layout whose
orientation is vertical for `Hidden`/`Top`/`Bottom` and horizontal for
`Left`/`Right`, whose items are the documented children in order
(icon only for `Hidden`; controls then icon for `Top` and `Left`; icon
then controls for `Bottom` and `Right`), each wrapped in its own
single-widget sub-layout; and afterwards the controls frame's
visibility is false if and only if the location is `Hidden`. -/
theorem assemble_layout_spec (s : SymbolState) :
    ∃ l : Layout,
      (assemble_layout s).interlock_layout = some l ∧
      l.orientation = specOrientation s.controls_location ∧
      l.items = (specChildren s.controls_location).map
        (fun w => { widgets := [w] }) ∧
      ((assemble_layout s).controls_visible = false ↔
        s.controls_location = ContentLocation.Hidden) := by
  rw [assemble_layout_eq]
  refine ⟨_, rfl, rfl, rfl, ?_⟩
  cases s.controls_location <;> simp

/-- C6: `assemble_layout` fully clears the previous layout first
(running it right after `clear` yields the same result), and afterwards
the interlock frame holds exactly one layout, whose items are exactly
the documented single-widget sub-layouts for the current
`ContentLocation`, with no duplicates. -/
theorem clear_assemble_unique_layout (s : SymbolState) :
    assemble_layout (clear s) = assemble_layout s ∧
    ∃ l : Layout,
      (assemble_layout (clear s)).interlock_layout = some l ∧
      l.items = (specChildren s.controls_location).map
        (fun w => { widgets := [w] }) ∧
      l.items.Nodup := by
  have h1 : assemble_layout (clear s) = assemble_layout s := by
    rw [assemble_layout_eq (clear s), assemble_layout_eq s, clear_eq s]
  refine ⟨h1, ?_⟩
  rw [h1, assemble_layout_eq s]
  refine ⟨_, rfl, rfl, ?_⟩
  cases s.controls_location <;> simp [specChildren]

/-- A concrete icon for evaluating the setters: the state of a plain
`QFrame`-like icon widget before any size configuration. -/
def sampleIcon : IconState :=
  { policyH := SizePolicy.Maximum
    policyV := SizePolicy.Maximum
    minW := 0
    minH := 0
    maxW := 100
    maxH := 100
    visible := true }

/-- A freshly constructed symbol on which a subclass has created an
icon widget. -/
def sampleState : SymbolState :=
  { initState with icon := some sampleIcon }

/-- C2: the `iconSize` setter with `size ≤ 0` gives the icon an
Expanding/Expanding size policy, minimum size `1 × 1` and the
effectively unbounded maximum `999999 × 999999`; with `size > 0` it
gives the icon a Fixed/Fixed size policy and a fixed square of exactly
`size × size` (minimum and maximum both `size`). -/
theorem setIconSize_policy_spec (s : SymbolState) (ic : IconState) (size : Int)
    (h : s.icon = some ic) :
    (size ≤ 0 → ∃ t ic2, setIconSize s size = some t ∧ t.icon = some ic2 ∧
      ic2.policyH = SizePolicy.Expanding ∧ ic2.policyV = SizePolicy.Expanding ∧
      ic2.minW = 1 ∧ ic2.minH = 1 ∧ ic2.maxW = 999999 ∧ ic2.maxH = 999999) ∧
    (0 < size → ∃ t ic2, setIconSize s size = some t ∧ t.icon = some ic2 ∧
      ic2.policyH = SizePolicy.Fixed ∧ ic2.policyV = SizePolicy.Fixed ∧
      ic2.minW = size ∧ ic2.minH = size ∧ ic2.maxW = size ∧ ic2.maxH = size) := by
  constructor
  · intro hle
    simp only [setIconSize, h]
    rw [if_pos hle]
    exact ⟨_, _, rfl, rfl, rfl, rfl, rfl, rfl, rfl, rfl⟩
  · intro hpos
    simp only [setIconSize, h]
    rw [if_neg (not_le.mpr hpos)]
    exact ⟨_, _, rfl, rfl, rfl, rfl, rfl, rfl, rfl, rfl⟩

/-- Witness for C2 at `size = 0` (expanding branch) and `size = 3`
(fixed branch). -/
theorem setIconSize_policy_spec_witness :
    (∃ t ic2, setIconSize sampleState 0 = some t ∧ t.icon = some ic2 ∧
      ic2.policyH = SizePolicy.Expanding ∧ ic2.policyV = SizePolicy.Expanding ∧
      ic2.minW = 1 ∧ ic2.minH = 1 ∧ ic2.maxW = 999999 ∧ ic2.maxH = 999999) ∧
    (∃ t ic2, setIconSize sampleState 3 = some t ∧ t.icon = some ic2 ∧
      ic2.policyH = SizePolicy.Fixed ∧ ic2.policyV = SizePolicy.Fixed ∧
      ic2.minW = 3 ∧ ic2.minH = 3 ∧ ic2.maxW = 3 ∧ ic2.maxH = 3) :=
  ⟨(setIconSize_policy_spec sampleState sampleIcon 0 rfl).1 (by decide),
   (setIconSize_policy_spec sampleState sampleIcon 3 rfl).2 (by decide)⟩

/-- C9: the `iconSize` setter normalizes its input: any `size ≤ 0` is
stored as exactly `-1` (so the getter returns `-1`), while a positive
`size` is stored unchanged. -/
theorem setIconSize_normalizes (s : SymbolState) (ic : IconState) (size : Int)
    (h : s.icon = some ic) :
    (size ≤ 0 → ∃ t, setIconSize s size = some t ∧ t.icon_size = -1) ∧
    (0 < size → ∃ t, setIconSize s size = some t ∧ t.icon_size = size) := by
  constructor
  · intro hle
    simp only [setIconSize, h]
    rw [if_pos hle]
    exact ⟨_, rfl, rfl⟩
  · intro hpos
    simp only [setIconSize, h]
    rw [if_neg (not_le.mpr hpos)]
    exact ⟨_, rfl, rfl⟩

/-- Witness for C9 at `size = -5` (stored as `-1`, not `-5`) and
`size = 7` (stored unchanged). -/
theorem setIconSize_normalizes_witness :
    (∃ t, setIconSize sampleState (-5) = some t ∧ t.icon_size = -1) ∧
    (∃ t, setIconSize sampleState 7 = some t ∧ t.icon_size = 7) :=
  ⟨(setIconSize_normalizes sampleState sampleIcon (-5) rfl).1 (by decide),
   (setIconSize_normalizes sampleState sampleIcon 7 rfl).2 (by decide)⟩

/-- `showIcon` setter, no-change branch: nothing happens and no call is
recorded. -/
lemma setShowIcon_same (s : SymbolState) (v : Bool) (h : v = s.show_icon) :
    setShowIcon s v = (s, []) := by
  simp [setShowIcon, h]

/-- `showIcon` setter, changed value, no icon: only the flag is stored
and the layout reassembled. -/
lemma setShowIcon_diff_none (s : SymbolState) (v : Bool) (hv : v ≠ s.show_icon)
    (hic : s.icon = none) :
    setShowIcon s v =
      (assemble_layout { s with show_icon := v }, [Event.assembleLayout]) := by
  simp [setShowIcon, hv, hic]

/-- `showIcon` setter, changed value, icon present: the flag is stored,
the icon's visibility set to the new flag, and the layout reassembled. -/
lemma setShowIcon_diff_some (s : SymbolState) (v : Bool) (ic : IconState)
    (hv : v ≠ s.show_icon) (hic : s.icon = some ic) :
    setShowIcon s v =
      (assemble_layout
        { s with show_icon := v, icon := some { ic with visible := v } },
       [Event.setIconVisible v, Event.assembleLayout]) := by
  simp [setShowIcon, hv, hic]

/-- After any `showIcon` set, the stored flag equals the value set. -/
lemma setShowIcon_show_icon (s : SymbolState) (v : Bool) :
    (setShowIcon s v).1.show_icon = v := by
  by_cases hv : v = s.show_icon
  · rw [setShowIcon_same s v hv]
    exact hv.symm
  · cases hic : s.icon with
    | none => rw [setShowIcon_diff_none s v hv hic, assemble_layout_eq]
    | some ic => rw [setShowIcon_diff_some s v ic hv hic, assemble_layout_eq]

/-- C3: setting `showIcon` to its current value changes no state and
records no icon-visibility change and no layout reassembly; setting a
different value stores the flag, sets the icon's visibility to it when
an icon exists, and reassembles the layout exactly once; consequently
two consecutive sets of the same value trigger at most one layout
reassembly. -/
theorem setShowIcon_spec (s : SymbolState) (v : Bool) :
    (v = s.show_icon → setShowIcon s v = (s, [])) ∧
    (v ≠ s.show_icon →
      (setShowIcon s v).1.show_icon = v ∧
      (∀ ic, s.icon = some ic →
        ∃ ic2, (setShowIcon s v).1.icon = some ic2 ∧ ic2.visible = v) ∧
      countAssembles (setShowIcon s v).2 = 1) ∧
    countAssembles ((setShowIcon s v).2 ++
      (setShowIcon (setShowIcon s v).1 v).2) ≤ 1 := by
  have hsecond : setShowIcon (setShowIcon s v).1 v = ((setShowIcon s v).1, []) :=
    setShowIcon_same _ v (setShowIcon_show_icon s v).symm
  refine ⟨fun h => setShowIcon_same s v h, fun hv => ?_, ?_⟩
  · refine ⟨setShowIcon_show_icon s v, ?_, ?_⟩
    · intro ic hic
      rw [setShowIcon_diff_some s v ic hv hic, assemble_layout_eq]
      exact ⟨_, rfl, rfl⟩
    · cases hic : s.icon with
      | none =>
        rw [setShowIcon_diff_none s v hv hic]
        rfl
      | some ic =>
        rw [setShowIcon_diff_some s v ic hv hic]
        rfl
  · rw [hsecond]
    by_cases hv : v = s.show_icon
    · rw [setShowIcon_same s v hv]
      simp [countAssembles]
    · cases hic : s.icon with
      | none =>
        rw [setShowIcon_diff_none s v hv hic]
        simp [countAssembles, isAssembleEvent]
      | some ic =>
        rw [setShowIcon_diff_some s v ic hv hic]
        simp [countAssembles, isAssembleEvent]

/-- Witness for C3: a no-change set on the fresh state, and a changing
set on a state with an icon. -/
theorem setShowIcon_spec_witness :
    setShowIcon initState true = (initState, []) ∧
    (setShowIcon sampleState false).1.show_icon = false ∧
    (∃ ic2, (setShowIcon sampleState false).1.icon = some ic2 ∧
      ic2.visible = false) ∧
    countAssembles (setShowIcon sampleState false).2 = 1 :=
  ⟨(setShowIcon_spec initState true).1 rfl,
   ((setShowIcon_spec sampleState false).2.1 (by decide)).1,
   ((setShowIcon_spec sampleState false).2.1 (by decide)).2.1 sampleIcon rfl,
   ((setShowIcon_spec sampleState false).2.1 (by decide)).2.2⟩
